import Mathlib

/-!
Verification of the `diagnostic_updater` topic-diagnostic family
(`_publisher.py`): `HeaderlessTopicDiagnostic`, `TopicDiagnostic` and
`DiagnosedPublisher`.

The Python classes are shallowly embedded as pure state-passing functions.
Object state is a record; calls into external collaborators (the Reporter,
the publish channel) and into the owned monitors are recorded in an event
trace, so that ordering and "called exactly once" properties are statable.
The monitors (`FrequencyStatus`, `TimeStampStatus`) and the composite-task
child list (`CompositeDiagnosticTask`) live in repository files outside the
provided source slice; they are modelled from the spec, as noted on each
definition.
-/

/-- Modelled from the spec: the configuration for the FrequencyStatus class
(window size, rate bounds, tolerance); `_update_functions.py` is not in the
source slice. -/
structure FreqParam where
  window_size : Nat
  min_freq : Rat
  max_freq : Rat
  tolerance : Rat
deriving DecidableEq

/-- Modelled from the spec: FrequencyMonitor state — counts ticks in a
rolling window of `window_size` slots; `_update_functions.py` is not in the
source slice. -/
structure FrequencyStatus where
  params : FreqParam
  counts : List Nat
  slot : Nat
deriving DecidableEq

/-- Modelled from the spec: a fresh FrequencyMonitor configured from the
frequency parameters, all slot counts zero. -/
def FrequencyStatus.init (p : FreqParam) : FrequencyStatus :=
  { params := p, counts := List.replicate p.window_size 0, slot := 0 }

/-- Modelled from the spec: `tick()` increments the count in the current
window slot. -/
def FrequencyStatus.tick (s : FrequencyStatus) : FrequencyStatus :=
  { s with counts := s.counts.set s.slot (s.counts.getD s.slot 0 + 1) }

/-- Modelled from the spec: `clear()` resets all slot counts and counters to
zero. -/
def FrequencyStatus.clear (s : FrequencyStatus) : FrequencyStatus :=
  { s with counts := List.replicate s.params.window_size 0, slot := 0 }

/-- Modelled from the spec: the configuration for the TimeStampStatus class
(acceptable delta bounds); `_update_functions.py` is not in the source
slice. -/
structure StampParam where
  min_acceptable : Rat
  max_acceptable : Rat
deriving DecidableEq

/-- Modelled from the spec: TimestampMonitor state — running
min/max/count/sum of observed deltas for the current window, plus the
anomaly counter for timestamps from the future. -/
structure TimeStampStatus where
  params : StampParam
  count : Nat
  sum : Rat
  dmin : Rat
  dmax : Rat
  early_count : Nat
deriving DecidableEq

/-- Modelled from the spec: a fresh TimestampMonitor with empty
accumulators. -/
def TimeStampStatus.init (p : StampParam) : TimeStampStatus :=
  { params := p, count := 0, sum := 0, dmin := 0, dmax := 0, early_count := 0 }

/-- Modelled from the spec: `tick(event_time_seconds)` computes
`delta = now - event_time_seconds`; a delta far in the future (below the
acceptable minimum) only increments the anomaly counter, otherwise the delta
is folded into the running min/max/sum/count. The clock is passed
explicitly as `now`. -/
def TimeStampStatus.tick (now t : Rat) (s : TimeStampStatus) : TimeStampStatus :=
  let delta := now - t
  if delta < s.params.min_acceptable then
    { s with early_count := s.early_count + 1 }
  else
    { s with
      count := s.count + 1
      sum := s.sum + delta
      dmin := if s.count = 0 then delta else min s.dmin delta
      dmax := if s.count = 0 then delta else max s.dmax delta }

/-- A reference to one of the monitors owned by a topic diagnostic, as it
appears in the composite task's child list (the Python list holds object
references; the monitor state itself is stored once, in `TopicState`). -/
inductive ChildRef where
  | freqRef
  | stampRef
deriving DecidableEq

/-- The observable state of the composite task passed to the Reporter's
`add` at registration time: its name and its child list at that moment. -/
structure RegCall where
  taskName : String
  taskChildren : List ChildRef
deriving DecidableEq

/-- One external or monitor call made by the topic-diagnostic family,
recorded in call order: registration with the Reporter, a monitor tick or
clear, or a send on the wrapped publish channel. `α` is the payload type. -/
inductive Ev (α : Type) where
  | register (c : RegCall)
  | stampTick (t : Rat)
  | freqTick
  | freqClear
  | send (m : α)
deriving DecidableEq

/-- True exactly on Reporter-registration events. -/
def Ev.isRegister {α : Type} : Ev α → Bool
  | Ev.register _ => true
  | _ => false

/-- The object state shared by `HeaderlessTopicDiagnostic`,
`TopicDiagnostic` and `DiagnosedPublisher` (minus the channel): the
composite task's name and child list, the owned FrequencyStatus, and the
owned TimeStampStatus when present. -/
structure TopicState where
  name : String
  tasks : List ChildRef
  freq : FrequencyStatus
  stamp : Option TimeStampStatus
deriving DecidableEq

/-- Modelled from the spec: `CompositeDiagnosticTask.addTask` appends to the
ordered child list; `_diagnostic_updater.py` is not in the source slice. -/
def TopicState.addTask (s : TopicState) (c : ChildRef) : TopicState :=
  { s with tasks := s.tasks ++ [c] }

/-- `HeaderlessTopicDiagnostic.__init__(name, diag, freq)`: builds the
composite task named `name + ' topic status'`, creates the FrequencyStatus
from `freq`, adds it as a child, then calls `diag.add(self)`. The Reporter
is `diag`, a function that may reject the registration; the trace records
the one registration attempt with the task as the Reporter observes it. -/
def HeaderlessTopicDiagnostic.init {α ε : Type} (name : String)
    (diag : RegCall → Except ε Unit) (freq : FreqParam) :
    List (Ev α) × Except ε TopicState :=
  let s0 : TopicState :=
    { name := name ++ " topic status", tasks := [],
      freq := FrequencyStatus.init freq, stamp := none }
  let s1 := s0.addTask ChildRef.freqRef
  let call : RegCall := { taskName := s1.name, taskChildren := s1.tasks }
  ([Ev.register call],
   match diag call with
   | Except.error e => Except.error e
   | Except.ok _ => Except.ok s1)

/-- `HeaderlessTopicDiagnostic.tick()`: forwards to
`FrequencyStatus.tick()`. -/
def HeaderlessTopicDiagnostic.tick {α : Type} (s : TopicState) :
    TopicState × List (Ev α) :=
  ({ s with freq := s.freq.tick }, [Ev.freqTick])

/-- `HeaderlessTopicDiagnostic.clear_window()`: forwards to
`FrequencyStatus.clear()`. -/
def HeaderlessTopicDiagnostic.clear_window {α : Type} (s : TopicState) :
    TopicState × List (Ev α) :=
  ({ s with freq := s.freq.clear }, [Ev.freqClear])

/-- `TopicDiagnostic.__init__(name, diag, freq, stamp)`: runs the
headerless constructor (which registers with the Reporter), then creates
the TimeStampStatus from `stamp` and adds it as a child. A registration
failure propagates before the stamp child exists. -/
def TopicDiagnostic.init {α ε : Type} (name : String)
    (diag : RegCall → Except ε Unit) (freq : FreqParam) (stamp : StampParam) :
    List (Ev α) × Except ε TopicState :=
  let (tr, r) := HeaderlessTopicDiagnostic.init (α := α) name diag freq
  (tr,
   match r with
   | Except.error e => Except.error e
   | Except.ok s1 =>
       let s2 := { s1 with stamp := some (TimeStampStatus.init stamp) }
       Except.ok (s2.addTask ChildRef.stampRef))

/-- `TopicDiagnostic.tick(stamp_s)`: `self.stamp.tick(stamp_s)` first, then
`HeaderlessTopicDiagnostic.tick(self)`. The clock is passed explicitly as
`now`. -/
def TopicDiagnostic.tick {α : Type} (now stamp_s : Rat) (s : TopicState) :
    TopicState × List (Ev α) :=
  let s1 := { s with stamp := s.stamp.map (TimeStampStatus.tick now stamp_s) }
  let (s2, tr) := HeaderlessTopicDiagnostic.tick (α := α) s1
  (s2, Ev.stampTick stamp_s :: tr)

/-- The wrapped publish channel: the core reads only its topic name;
`send` is recorded in the event trace. -/
structure PubChannel where
  topic_name : String
deriving DecidableEq

/-- The state of a `DiagnosedPublisher`: the topic-diagnostic state plus the
non-owning reference to the publish channel. -/
structure DiagnosedPublisher where
  topic : TopicState
  publisher : PubChannel
deriving DecidableEq

/-- `DiagnosedPublisher.__init__(pub, diag, freq, stamp)`: runs the
`TopicDiagnostic` constructor with `pub.topic_name` as the name, then
stores the channel. -/
def DiagnosedPublisher.init {α ε : Type} (pub : PubChannel)
    (diag : RegCall → Except ε Unit) (freq : FreqParam) (stamp : StampParam) :
    List (Ev α) × Except ε DiagnosedPublisher :=
  let (tr, r) := TopicDiagnostic.init (α := α) pub.topic_name diag freq stamp
  (tr,
   match r with
   | Except.error e => Except.error e
   | Except.ok t => Except.ok { topic := t, publisher := pub })

/-- A ROS time message: the `stamp` field of a message header. -/
structure TimeMsg where
  sec : Int
  nanosec : Nat
deriving DecidableEq

/-- A message header carrying a timestamp. -/
structure Header where
  stamp : TimeMsg
deriving DecidableEq

/-- A published payload: a header when the message has the expected
timestamp structure (`message.header.stamp`), plus opaque data. -/
structure Msg (α : Type) where
  header : Option Header
  data : α
deriving DecidableEq

/-- `Time.from_msg(stamp).nanoseconds` (rclpy): total nanoseconds of the
time message. -/
def TimeMsg.nanoseconds (t : TimeMsg) : Int :=
  t.sec * 1000000000 + t.nanosec

/-- `Time.from_msg(message.header.stamp).nanoseconds * 1e-9`: the event time
in seconds, as an exact rational. -/
def stampToSec (t : TimeMsg) : Rat :=
  (t.nanoseconds : Rat) / 1000000000

/-- Modelled from the spec: the failure raised by
`DiagnosedPublisher.publish` when the payload lacks the expected timestamp
structure (in the host code the attribute access `message.header.stamp`
fails; the spec names this failure `MissingTimestampField`). -/
inductive PubError where
  | MissingTimestampField
deriving DecidableEq

/-- `DiagnosedPublisher.publish(message)`: extracts
`message.header.stamp`, converts it to seconds, calls `self.tick(stamp_s)`,
then `self.publisher.publish(message)`. A payload with no header fails
before any monitor update or send. The clock is passed explicitly as
`now`. -/
def DiagnosedPublisher.publish {α : Type} (now : Rat) (s : DiagnosedPublisher)
    (message : Msg α) : List (Ev (Msg α)) × Except PubError DiagnosedPublisher :=
  match message.header with
  | none => ([], Except.error PubError.MissingTimestampField)
  | some h =>
      let stamp_s := stampToSec h.stamp
      let (t', tr) := TopicDiagnostic.tick (α := Msg α) now stamp_s s.topic
      (tr ++ [Ev.send message], Except.ok { s with topic := t' })

/-! Concrete instances used by the witness theorems. -/

/-- A concrete frequency configuration for witnesses. -/
def fpW : FreqParam :=
  { window_size := 5, min_freq := 10, max_freq := 20, tolerance := 1/10 }

/-- A concrete timestamp configuration for witnesses. -/
def spW : StampParam :=
  { min_acceptable := -1, max_acceptable := 5 }

/-- A concrete publish channel for witnesses. -/
def pubW : PubChannel := { topic_name := "odom" }

/-- A concrete constructed `DiagnosedPublisher` state for witnesses. -/
def dpW : DiagnosedPublisher :=
  { topic :=
      { name := "odom topic status"
        tasks := [ChildRef.freqRef, ChildRef.stampRef]
        freq := FrequencyStatus.init fpW
        stamp := some (TimeStampStatus.init spW) }
    publisher := pubW }

/-- A Reporter that accepts every registration, for witnesses. -/
def regOkW : RegCall → Except Unit Unit := fun _ => Except.ok ()

/-- A Reporter that rejects every registration with error code 42, for
witnesses. -/
def regFailW : RegCall → Except Nat Unit := fun _ => Except.error 42

/-! Claim theorems. -/

/-- Claim C1: for every payload that lacks the expected timestamp structure
(no header), `DiagnosedPublisher.publish` fails with
`MissingTimestampField`, the failure propagates to the caller (the result is
that error, no diagnostic state escapes), and the trace is empty: no send on
the channel, no monitor update, no registration. -/
theorem publish_missing_header {α : Type} (now : Rat) (s : DiagnosedPublisher)
    (message : Msg α) (h : message.header = none) :
    DiagnosedPublisher.publish now s message =
      ([], Except.error PubError.MissingTimestampField) := by
  unfold DiagnosedPublisher.publish
  rw [h]

/-- Witness for C1 at a concrete headerless payload. -/
theorem publish_missing_header_witness :
    (Msg.mk none (0 : Nat)).header = none ∧
      DiagnosedPublisher.publish 0 dpW (Msg.mk none (0 : Nat)) =
        ([], Except.error PubError.MissingTimestampField) :=
  ⟨rfl, publish_missing_header 0 dpW (Msg.mk none (0 : Nat)) rfl⟩

/-- Claim C2: for every well-formed payload, `publish` converts the header
stamp to seconds (total nanoseconds times 1e-9), ticks the timestamp monitor
with that value, then the frequency monitor, and finally sends the very same
payload exactly once on the channel; the resulting state is the topic state
updated by `TopicDiagnostic.tick` at that event time. -/
theorem publish_wellformed {α : Type} (now : Rat) (s : DiagnosedPublisher)
    (message : Msg α) (hd : Header) (h : message.header = some hd) :
    DiagnosedPublisher.publish now s message =
      ([Ev.stampTick (stampToSec hd.stamp), Ev.freqTick, Ev.send message],
       Except.ok
         { s with
           topic := (TopicDiagnostic.tick (α := Msg α) now
             (stampToSec hd.stamp) s.topic).1 }) := by
  unfold DiagnosedPublisher.publish
  rw [h]
  rfl

/-- Witness for C2 at a concrete stamped payload. -/
theorem publish_wellformed_witness :
    (Msg.mk (some (Header.mk (TimeMsg.mk 2 500000000))) (7 : Nat)).header =
        some (Header.mk (TimeMsg.mk 2 500000000)) ∧
      DiagnosedPublisher.publish 3 dpW
          (Msg.mk (some (Header.mk (TimeMsg.mk 2 500000000))) (7 : Nat)) =
        ([Ev.stampTick (stampToSec (TimeMsg.mk 2 500000000)), Ev.freqTick,
          Ev.send (Msg.mk (some (Header.mk (TimeMsg.mk 2 500000000))) (7 : Nat))],
         Except.ok
           { dpW with
             topic := (TopicDiagnostic.tick (α := Msg Nat) 3
               (stampToSec (TimeMsg.mk 2 500000000)) dpW.topic).1 }) :=
  ⟨rfl, publish_wellformed 3 dpW
    (Msg.mk (some (Header.mk (TimeMsg.mk 2 500000000))) (7 : Nat))
    (Header.mk (TimeMsg.mk 2 500000000)) rfl⟩

/-- Claim C3: on every call of `TopicDiagnostic.tick(stamp_s)` the
timestamp monitor records its delta strictly before the frequency monitor
ticks: the call trace is exactly the stamp tick followed by the frequency
tick. -/
theorem tick_stamp_before_freq {α : Type} (now stamp_s : Rat) (s : TopicState) :
    (TopicDiagnostic.tick (α := α) now stamp_s s).2 =
      [Ev.stampTick stamp_s, Ev.freqTick] := rfl

/-- Claim C4: constructing a `HeaderlessTopicDiagnostic` (when the Reporter
accepts) builds the composite task named `name + ' topic status'`, creates
exactly one FrequencyStatus from the frequency configuration and adds it as
the only child, and registers the composite task itself — the registration
call carries the task's name and child list, not the monitor — exactly once
during construction. -/
theorem headerless_init_spec {α ε : Type} (name : String)
    (diag : RegCall → Except ε Unit) (freq : FreqParam)
    (h : diag
      { taskName := name ++ " topic status",
        taskChildren := [ChildRef.freqRef] } = Except.ok ()) :
    HeaderlessTopicDiagnostic.init (α := α) name diag freq =
      ([Ev.register
          { taskName := name ++ " topic status",
            taskChildren := [ChildRef.freqRef] }],
       Except.ok
         { name := name ++ " topic status", tasks := [ChildRef.freqRef],
           freq := FrequencyStatus.init freq, stamp := none }) := by
  unfold HeaderlessTopicDiagnostic.init TopicState.addTask
  simp only [List.nil_append]
  rw [h]

/-- Witness for C4 with an accepting Reporter at a concrete name and
frequency configuration. -/
theorem headerless_init_spec_witness :
    regOkW
        { taskName := "odom" ++ " topic status",
          taskChildren := [ChildRef.freqRef] } = Except.ok () ∧
      HeaderlessTopicDiagnostic.init (α := Nat) "odom" regOkW fpW =
        ([Ev.register
            { taskName := "odom" ++ " topic status",
              taskChildren := [ChildRef.freqRef] }],
         Except.ok
           { name := "odom" ++ " topic status", tasks := [ChildRef.freqRef],
             freq := FrequencyStatus.init fpW, stamp := none }) :=
  ⟨rfl, headerless_init_spec "odom" regOkW fpW rfl⟩

/-- Claim C5: the topic name a `DiagnosedPublisher` is diagnosed under is
derived from the wrapped channel's topic name at construction: any
successfully constructed state has composite-task name
`pub.topic_name + ' topic status'`. -/
theorem diagnosed_publisher_topic_name {α ε : Type} (pub : PubChannel)
    (diag : RegCall → Except ε Unit) (freq : FreqParam) (stamp : StampParam)
    (d : DiagnosedPublisher)
    (h : (DiagnosedPublisher.init (α := α) pub diag freq stamp).2 =
      Except.ok d) :
    d.topic.name = pub.topic_name ++ " topic status" := by
  rcases hr : diag
      { taskName := pub.topic_name ++ " topic status",
        taskChildren := [ChildRef.freqRef] } with e | u
  · simp [DiagnosedPublisher.init, TopicDiagnostic.init,
      HeaderlessTopicDiagnostic.init, TopicState.addTask, hr] at h
  · simp [DiagnosedPublisher.init, TopicDiagnostic.init,
      HeaderlessTopicDiagnostic.init, TopicState.addTask, hr] at h
    rw [← h]

/-- Witness for C5 at a concrete channel, configuration and resulting
state. -/
theorem diagnosed_publisher_topic_name_witness :
    (DiagnosedPublisher.init (α := Nat) pubW regOkW fpW spW).2 =
        Except.ok dpW ∧
      dpW.topic.name = pubW.topic_name ++ " topic status" :=
  ⟨rfl, diagnosed_publisher_topic_name (α := Nat) pubW regOkW fpW spW dpW rfl⟩

/-- Claim C6: each constructor of the family registers with the Reporter
exactly once (whether or not the Reporter accepts), and no operation of the
family — `tick`, `clear_window`, `publish` — ever produces a registration
call. -/
theorem reporter_called_once_at_construction {α ε : Type} (name : String)
    (diag : RegCall → Except ε Unit) (pub : PubChannel) (freq : FreqParam)
    (stamp : StampParam) (s : TopicState) (d : DiagnosedPublisher)
    (now t : Rat) (m : Msg α) :
    (HeaderlessTopicDiagnostic.init (α := α) name diag freq).1.countP
        Ev.isRegister = 1 ∧
    (TopicDiagnostic.init (α := α) name diag freq stamp).1.countP
        Ev.isRegister = 1 ∧
    (DiagnosedPublisher.init (α := α) pub diag freq stamp).1.countP
        Ev.isRegister = 1 ∧
    (HeaderlessTopicDiagnostic.tick (α := α) s).2.countP Ev.isRegister = 0 ∧
    (HeaderlessTopicDiagnostic.clear_window (α := α) s).2.countP
        Ev.isRegister = 0 ∧
    (TopicDiagnostic.tick (α := α) now t s).2.countP Ev.isRegister = 0 ∧
    (DiagnosedPublisher.publish now d m).1.countP Ev.isRegister = 0 := by
  refine ⟨rfl, rfl, rfl, rfl, rfl, rfl, ?_⟩
  cases hm : m.header <;>
    simp [DiagnosedPublisher.publish, TopicDiagnostic.tick,
      HeaderlessTopicDiagnostic.tick, Ev.isRegister, hm]

/-- Claim C7: a successfully constructed `TopicDiagnostic` or
`DiagnosedPublisher` owns exactly one FrequencyStatus and exactly one
TimeStampStatus, registered as children of the composite task in that order
and with no other children. -/
theorem children_exactly_freq_and_stamp {α ε : Type} (name : String)
    (diag : RegCall → Except ε Unit) (pub : PubChannel) (freq : FreqParam)
    (stamp : StampParam) (t : TopicState) (d : DiagnosedPublisher)
    (hT : (TopicDiagnostic.init (α := α) name diag freq stamp).2 =
      Except.ok t)
    (hD : (DiagnosedPublisher.init (α := α) pub diag freq stamp).2 =
      Except.ok d) :
    t.tasks = [ChildRef.freqRef, ChildRef.stampRef] ∧
    t.freq = FrequencyStatus.init freq ∧
    t.stamp = some (TimeStampStatus.init stamp) ∧
    d.topic.tasks = [ChildRef.freqRef, ChildRef.stampRef] ∧
    d.topic.freq = FrequencyStatus.init freq ∧
    d.topic.stamp = some (TimeStampStatus.init stamp) := by
  rcases hr : diag
      { taskName := name ++ " topic status",
        taskChildren := [ChildRef.freqRef] } with e | u
  · simp [TopicDiagnostic.init, HeaderlessTopicDiagnostic.init,
      TopicState.addTask, hr] at hT
  · simp [TopicDiagnostic.init, HeaderlessTopicDiagnostic.init,
      TopicState.addTask, hr] at hT
    rcases hr2 : diag
        { taskName := pub.topic_name ++ " topic status",
          taskChildren := [ChildRef.freqRef] } with e2 | u2
    · simp [DiagnosedPublisher.init, TopicDiagnostic.init,
        HeaderlessTopicDiagnostic.init, TopicState.addTask, hr2] at hD
    · simp [DiagnosedPublisher.init, TopicDiagnostic.init,
        HeaderlessTopicDiagnostic.init, TopicState.addTask, hr2] at hD
      rw [← hT, ← hD]
      exact ⟨rfl, rfl, rfl, rfl, rfl, rfl⟩

/-- Witness for C7 at a concrete Reporter, configurations and resulting
states. -/
theorem children_exactly_freq_and_stamp_witness :
    (TopicDiagnostic.init (α := Nat) "odom" regOkW fpW spW).2 =
        Except.ok dpW.topic ∧
      (DiagnosedPublisher.init (α := Nat) pubW regOkW fpW spW).2 =
        Except.ok dpW ∧
      dpW.topic.tasks = [ChildRef.freqRef, ChildRef.stampRef] ∧
      dpW.topic.freq = FrequencyStatus.init fpW ∧
      dpW.topic.stamp = some (TimeStampStatus.init spW) :=
  ⟨rfl, rfl,
    ((children_exactly_freq_and_stamp (α := Nat) "odom" regOkW pubW fpW spW
        dpW.topic dpW rfl rfl).1),
    ((children_exactly_freq_and_stamp (α := Nat) "odom" regOkW pubW fpW spW
        dpW.topic dpW rfl rfl).2.1),
    ((children_exactly_freq_and_stamp (α := Nat) "odom" regOkW pubW fpW spW
        dpW.topic dpW rfl rfl).2.2.1)⟩

/-- Claim C8: `clear_window` clears exactly the FrequencyStatus (via its
`clear`), leaving the timestamp monitor, the child list and the task name
unchanged, and its trace is the single frequency-clear call — in particular
no registration and no send. -/
theorem clear_window_frame {α : Type} (s : TopicState) :
    (HeaderlessTopicDiagnostic.clear_window (α := α) s).1.freq =
        FrequencyStatus.clear s.freq ∧
    (HeaderlessTopicDiagnostic.clear_window (α := α) s).1.stamp = s.stamp ∧
    (HeaderlessTopicDiagnostic.clear_window (α := α) s).1.tasks = s.tasks ∧
    (HeaderlessTopicDiagnostic.clear_window (α := α) s).1.name = s.name ∧
    (HeaderlessTopicDiagnostic.clear_window (α := α) s).2 = [Ev.freqClear] :=
  ⟨rfl, rfl, rfl, rfl, rfl⟩

/-- Claim C9: when the Reporter rejects the registration, the failure
propagates synchronously out of each constructor of the family: the result
is exactly the Reporter's error (no catch, no translation), the trace shows
a single registration attempt (no retry), and no constructed state is
returned (nothing to roll back). -/
theorem register_failure_propagates {α ε : Type} (name : String)
    (diag : RegCall → Except ε Unit) (pub : PubChannel) (freq : FreqParam)
    (stamp : StampParam) (e e2 : ε)
    (h1 : diag
      { taskName := name ++ " topic status",
        taskChildren := [ChildRef.freqRef] } = Except.error e)
    (h2 : diag
      { taskName := pub.topic_name ++ " topic status",
        taskChildren := [ChildRef.freqRef] } = Except.error e2) :
    HeaderlessTopicDiagnostic.init (α := α) name diag freq =
      ([Ev.register
          { taskName := name ++ " topic status",
            taskChildren := [ChildRef.freqRef] }], Except.error e) ∧
    TopicDiagnostic.init (α := α) name diag freq stamp =
      ([Ev.register
          { taskName := name ++ " topic status",
            taskChildren := [ChildRef.freqRef] }], Except.error e) ∧
    DiagnosedPublisher.init (α := α) pub diag freq stamp =
      ([Ev.register
          { taskName := pub.topic_name ++ " topic status",
            taskChildren := [ChildRef.freqRef] }], Except.error e2) := by
  refine ⟨?_, ?_, ?_⟩ <;>
    simp [HeaderlessTopicDiagnostic.init, TopicDiagnostic.init,
      DiagnosedPublisher.init, TopicState.addTask, h1, h2]

/-- Witness for C9 with a rejecting Reporter at a concrete name, channel
and configurations. -/
theorem register_failure_propagates_witness :
    regFailW
        { taskName := "odom" ++ " topic status",
          taskChildren := [ChildRef.freqRef] } = Except.error 42 ∧
      regFailW
        { taskName := pubW.topic_name ++ " topic status",
          taskChildren := [ChildRef.freqRef] } = Except.error 42 ∧
      TopicDiagnostic.init (α := Nat) "odom" regFailW fpW spW =
        ([Ev.register
            { taskName := "odom" ++ " topic status",
              taskChildren := [ChildRef.freqRef] }], Except.error 42) :=
  ⟨rfl, rfl,
    (register_failure_propagates (α := Nat) "odom" regFailW pubW fpW spW
      42 42 rfl rfl).2.1⟩

/-- Claim C10: during construction of a `TopicDiagnostic` or
`DiagnosedPublisher`, the single registration with the Reporter happens
before the TimeStampStatus child is attached: the registration call carries
a child list containing only the FrequencyStatus reference, whatever the
Reporter answers. -/
theorem register_sees_only_freq_child {α ε : Type} (name : String)
    (diag : RegCall → Except ε Unit) (pub : PubChannel) (freq : FreqParam)
    (stamp : StampParam) :
    (TopicDiagnostic.init (α := α) name diag freq stamp).1 =
      [Ev.register
        { taskName := name ++ " topic status",
          taskChildren := [ChildRef.freqRef] }] ∧
    (DiagnosedPublisher.init (α := α) pub diag freq stamp).1 =
      [Ev.register
        { taskName := pub.topic_name ++ " topic status",
          taskChildren := [ChildRef.freqRef] }] :=
  ⟨rfl, rfl⟩
